import Mathlib

/-!
Shallow embedding of the Bedathon (HokieNest) frontend matching helpers.

JavaScript strings are modelled as lists of character codes (`JStr`), so
that case conversion and character-level parsing (`parseInt`, regex digit
stripping, `split('-')`) can be embedded faithfully and executed.
JavaScript numbers are modelled as `Int` or `ℚ` where the code only ever
manipulates finite decimal values (NaN/Infinity never arise on the code
paths embedded here); fallible operations (`JSON.parse`, `.join` on a
non-array) are modelled with `Except`/`Option`.
-/

/-- A JavaScript string, as its list of character codes. -/
abbrev JStr := List Nat

/-- Character codes of a Lean string literal, used to write `JStr` constants. -/
def strCodes (s : String) : JStr := s.data.map Char.toNat

/-- ASCII upper-casing of one character code, as done by
`String.prototype.toUpperCase` on ASCII input. -/
def upChar (n : Nat) : Nat := if 97 ≤ n ∧ n ≤ 122 then n - 32 else n

/-- `String(value).toUpperCase()` on ASCII strings. -/
def jsToUpperCase (s : JStr) : JStr := s.map upChar

/-- Decimal digit character codes. -/
def isDigitCode (n : Nat) : Bool := 48 ≤ n && n ≤ 57

/-- Whitespace character codes recognised by JavaScript `trim` / `parseInt`
(ASCII subset). -/
def isSpaceCode (n : Nat) : Bool := n = 32 || n = 9 || n = 10 || n = 11 || n = 12 || n = 13

/-- Value of a list of decimal digit codes (most significant first). -/
def digitsVal (s : JStr) : Nat := s.foldl (fun acc d => acc * 10 + (d - 48)) 0

/-- `String.prototype.trim()` (ASCII whitespace). -/
def jsTrim (s : JStr) : JStr :=
  ((s.dropWhile isSpaceCode).reverse.dropWhile isSpaceCode).reverse

/-- `parseInt(s)` for decimal input: skip leading whitespace, optional sign,
then a maximal run of digits; `NaN` (here `none`) when no digit follows.
Trailing characters are ignored, as in JavaScript.  (The `0x` hexadecimal
prefix of `parseInt` is not modelled; no embedded call site receives one.) -/
def js_parseInt (s : JStr) : Option Int :=
  let t := s.dropWhile isSpaceCode
  let (sign, t) : Int × JStr :=
    match t with
    | 45 :: rest => (-1, rest)
    | 43 :: rest => (1, rest)
    | _ => (1, t)
  let ds := t.takeWhile isDigitCode
  if ds = [] then none else some (sign * (digitsVal ds : Int))

/-- JavaScript truthiness of a possibly-missing string
(`undefined`/`null` and `''` are falsy). -/
def jsTruthyStr : Option JStr → Bool
  | none => false
  | some s => s ≠ []

/-- JavaScript truthiness of a possibly-missing number
(`undefined`/`null` and `0` are falsy). -/
def jsTruthyNum : Option ℚ → Bool
  | none => false
  | some q => q ≠ 0

/-- Decimal digits of a natural number, most significant first
(fuel-bounded division loop; the fuel `n + 1` always suffices). -/
def natToStrAux : Nat → Nat → JStr
  | 0, _ => []
  | fuel + 1, n => if n < 10 then [48 + n] else natToStrAux fuel (n / 10) ++ [48 + n % 10]

/-- Decimal digits of a natural number. -/
def natToStr (n : Nat) : JStr := natToStrAux (n + 1) n

/-- JavaScript rendering of an integer. -/
def intToStr (i : Int) : JStr :=
  if i < 0 then 45 :: natToStr i.natAbs else natToStr i.natAbs

/-- Decimal expansion of the proper fraction `rem / den`, one digit per long
division step, stopping at zero remainder or when `fuel` runs out. -/
def fracDigits : Nat → Nat → Nat → JStr
  | 0, _, _ => []
  | fuel + 1, rem, den =>
    if rem = 0 then []
    else
      let r10 := rem * 10
      (48 + r10 / den) :: fracDigits fuel (r10 % den) den

/-- JavaScript `String(n)` for the finite decimal numbers handled by the
embedded code (integers render exactly; non-terminating expansions are cut
at 17 digits, the precision at which JavaScript floats are already exact). -/
def jsNumToStr (q : ℚ) : JStr :=
  let sign : JStr := if q.num < 0 then [45] else []
  let a := q.num.natAbs
  let ip := a / q.den
  let rem := a % q.den
  sign ++ natToStr ip ++ (if rem = 0 then [] else 46 :: fracDigits 17 rem q.den)

namespace RM

/-!
`frontend/app/roommate-matching/page.tsx`.
-/

/-- `convertPreferenceToInt` (roommate-matching page): upper-case the raw
string, map the four lower ordinal labels to 1–4, and return 5 for
everything else (including `VERY_HIGH` and any unrecognised value). -/
def convertPreferenceToInt (value : JStr) : Int :=
  let v := jsToUpperCase value
  if v = strCodes "VERY_LOW" then 1
  else if v = strCodes "LOW" then 2
  else if v = strCodes "MEDIUM" then 3
  else if v = strCodes "HIGH" then 4
  else 5

/-- `intToPreference` (roommate-matching page): falsy values (missing or 0)
give `MEDIUM`; otherwise bucket the number into the five ordinal labels. -/
def intToPreference (value : Option Int) : JStr :=
  match value with
  | none => strCodes "MEDIUM"
  | some v =>
    if v = 0 then strCodes "MEDIUM"
    else if v ≤ 1 then strCodes "VERY_LOW"
    else if v = 2 then strCodes "LOW"
    else if v = 3 then strCodes "MEDIUM"
    else if v = 4 then strCodes "HIGH"
    else strCodes "VERY_HIGH"

end RM

namespace OB

/-!
`frontend/app/page.tsx` (onboarding).
-/

/-- `convertPreference`: slider number to ordinal label. -/
def convertPreference (value : ℚ) : JStr :=
  if value ≤ 1 then strCodes "VERY_LOW"
  else if value ≤ 2 then strCodes "LOW"
  else if value ≤ 3 then strCodes "MEDIUM"
  else if value ≤ 4 then strCodes "HIGH"
  else strCodes "VERY_HIGH"

/-- `convertPreferenceToInt` (onboarding page): slider number to 1–5. -/
def convertPreferenceToInt (value : ℚ) : Int :=
  if value ≤ 1 then 1
  else if value ≤ 2 then 2
  else if value ≤ 3 then 3
  else if value ≤ 4 then 4
  else 5

/-- `Number(String(budgetStr).replace(/[^0-9]/g, '')) || 1000`: keep only the
digits, read them as a number, and fall back to 1000 when that number is 0
(in particular when no digit is present). -/
def parseBudget (budgetStr : JStr) : Int :=
  let n : Int := digitsVal (budgetStr.filter isDigitCode)
  if n = 0 then 1000 else n

/-- The `roommateProfileData` payload fields relevant to the claims. -/
structure RoommatePayload where
  budget_min : Int
  budget_max : Int
  cleanliness : JStr
  noise_level : JStr
  study_time : JStr
  social_level : JStr
  sleep_schedule : JStr
  preferred_bedrooms : Int
  pet_friendly : Bool
  smoking : Bool
  deriving DecidableEq, Repr

/-- Construction of `roommateProfileData` in `createProfile`: budget parsed
from the form field, `budget_max = budget + 200`, the five lifestyle sliders
converted with `convertPreference`. -/
def roommateProfileData (budgetStr : JStr)
    (clean noise study social sleep : ℚ) : RoommatePayload :=
  let budget := parseBudget budgetStr
  { budget_min := budget
    budget_max := budget + 200
    cleanliness := convertPreference clean
    noise_level := convertPreference noise
    study_time := convertPreference study
    social_level := convertPreference social
    sleep_schedule := convertPreference sleep
    preferred_bedrooms := 2
    pet_friendly := false
    smoking := false }

/-- Body of the `POST /matching/roommate-matches` request built by
`fetchRoommateMatches`: the profile data spread first, then
`min_compatibility: 0.5` added. -/
structure MatchRequestBody where
  payload : RoommatePayload
  min_compatibility : ℚ
  deriving DecidableEq, Repr

/-- `fetchRoommateMatches(profileData?)`: `dataToSend` is the argument when
given, else the `profile` component state; the JSON body is
`{...dataToSend, min_compatibility: 0.5}`. -/
def fetchRoommateMatchesBody (profileData : Option RoommatePayload)
    (profileState : RoommatePayload) : MatchRequestBody :=
  let dataToSend := profileData.getD profileState
  { payload := dataToSend, min_compatibility := 1/2 }

end OB

namespace UA

/-!
`frontend/lib/useApartments.ts`.

`JSON.parse` is modelled by an executable JSON parser over `JStr` (strings
with standard escapes, numbers, booleans, null, arrays, objects); inputs it
rejects are the inputs on which `JSON.parse` throws.  Numeric coercion of an
exotic explicit `length` property on a parsed object is modelled for
numbers, booleans and null only.
-/

/-- A parsed JSON value. -/
inductive Js where
  | jnull : Js
  | jbool : Bool → Js
  | jnum : ℚ → Js
  | jstr : JStr → Js
  | jarr : List Js → Js
  | jobj : List (JStr × Js) → Js

/-- JSON whitespace (space, tab, line feed, carriage return). -/
def isJsonWs (n : Nat) : Bool := n = 32 || n = 9 || n = 10 || n = 13

/-- Value of a hexadecimal digit code. -/
def hexVal (n : Nat) : Option Nat :=
  if 48 ≤ n ∧ n ≤ 57 then some (n - 48)
  else if 65 ≤ n ∧ n ≤ 70 then some (n - 55)
  else if 97 ≤ n ∧ n ≤ 102 then some (n - 87)
  else none

/-- JSON string escape characters (after a backslash). -/
def escapeMap (n : Nat) : Option Nat :=
  if n = 34 then some 34
  else if n = 92 then some 92
  else if n = 47 then some 47
  else if n = 98 then some 8
  else if n = 102 then some 12
  else if n = 110 then some 10
  else if n = 114 then some 13
  else if n = 116 then some 9
  else none

/-- Body of a JSON string after the opening quote: content up to the closing
quote plus the rest of the input; fails on unescaped control characters,
bad escapes, or a missing closing quote. -/
def parseStrBody : Nat → JStr → Option (JStr × JStr)
  | 0, _ => none
  | _, [] => none
  | fuel + 1, c :: rest =>
    if c = 34 then some ([], rest)
    else if c = 92 then
      match rest with
      | [] => none
      | e :: rest2 =>
        if e = 117 then
          match rest2 with
          | a :: b :: c2 :: d :: rest3 => do
            let ha ← hexVal a
            let hb ← hexVal b
            let hc ← hexVal c2
            let hd ← hexVal d
            let (t, r) ← parseStrBody fuel rest3
            pure ((((ha * 16 + hb) * 16 + hc) * 16 + hd) :: t, r)
          | _ => none
        else do
          let m ← escapeMap e
          let (t, r) ← parseStrBody fuel rest
          pure (m :: t, r)
    else if c < 32 then none
    else do
      let (t, r) ← parseStrBody fuel rest
      pure ((c : Nat) :: t, r)

/-- A JSON number at the front of the input: optional minus, integer part
without leading zeros, optional fraction and exponent. -/
def parseNumber (s : JStr) : Option (ℚ × JStr) :=
  let (sign, t) : ℚ × JStr := match s with
    | 45 :: r => (-1, r)
    | _ => (1, s)
  let ds := t.takeWhile isDigitCode
  let t1 := t.dropWhile isDigitCode
  if ds = [] then none
  else if 1 < ds.length ∧ ds.head? = some 48 then none
  else
    let ip : ℚ := (digitsVal ds : ℚ)
    let withFrac : Option (ℚ × JStr) :=
      match t1 with
      | 46 :: r =>
        let fs := r.takeWhile isDigitCode
        if fs = [] then none
        else some (ip + (digitsVal fs : ℚ) / ((10 : ℚ) ^ fs.length), r.dropWhile isDigitCode)
      | _ => some (ip, t1)
    match withFrac with
    | none => none
    | some (m, t2) =>
      match t2 with
      | 101 :: r => do
        let (esign, r2) : Int × JStr := match r with
          | 45 :: rr => (-1, rr)
          | 43 :: rr => (1, rr)
          | _ => (1, r)
        let es := r2.takeWhile isDigitCode
        if es = [] then none
        else some (sign * m * (10 : ℚ) ^ (esign * (digitsVal es : Int)), r2.dropWhile isDigitCode)
      | 69 :: r => do
        let (esign, r2) : Int × JStr := match r with
          | 45 :: rr => (-1, rr)
          | 43 :: rr => (1, rr)
          | _ => (1, r)
        let es := r2.takeWhile isDigitCode
        if es = [] then none
        else some (sign * m * (10 : ℚ) ^ (esign * (digitsVal es : Int)), r2.dropWhile isDigitCode)
      | _ => some (sign * m, t2)

mutual

/-- A JSON value at the front of the input (fuel-bounded recursive descent). -/
def parseV : Nat → JStr → Option (Js × JStr)
  | 0, _ => none
  | fuel + 1, s =>
    let t := s.dropWhile isJsonWs
    match t with
    | [] => none
    | c :: rest =>
      if c = 34 then do
        let (str, r) ← parseStrBody (rest.length + 1) rest
        pure (Js.jstr str, r)
      else if c = 91 then
        let r1 := rest.dropWhile isJsonWs
        match r1 with
        | 93 :: r2 => some (Js.jarr [], r2)
        | _ => do
          let (l, r2) ← parseArrTail fuel r1
          pure (Js.jarr l, r2)
      else if c = 123 then
        let r1 := rest.dropWhile isJsonWs
        match r1 with
        | 125 :: r2 => some (Js.jobj [], r2)
        | _ => do
          let (l, r2) ← parseObjTail fuel r1
          pure (Js.jobj l, r2)
      else if t.take 4 = strCodes "true" then some (Js.jbool true, t.drop 4)
      else if t.take 5 = strCodes "false" then some (Js.jbool false, t.drop 5)
      else if t.take 4 = strCodes "null" then some (Js.jnull, t.drop 4)
      else do
        let (q, r) ← parseNumber t
        pure (Js.jnum q, r)

/-- Elements of a JSON array after the opening bracket (first element next). -/
def parseArrTail : Nat → JStr → Option (List Js × JStr)
  | 0, _ => none
  | fuel + 1, s => do
    let (v, r) ← parseV fuel s
    let r1 := r.dropWhile isJsonWs
    match r1 with
    | 44 :: r2 => do
      let (l, r3) ← parseArrTail fuel r2
      pure (v :: l, r3)
    | 93 :: r2 => pure ([v], r2)
    | _ => none

/-- Members of a JSON object after the opening brace (first key next). -/
def parseObjTail : Nat → JStr → Option (List (JStr × Js) × JStr)
  | 0, _ => none
  | fuel + 1, s =>
    match s with
    | 34 :: rest => do
      let (key, r) ← parseStrBody (rest.length + 1) rest
      let r1 := r.dropWhile isJsonWs
      match r1 with
      | 58 :: r2 => do
        let (v, r3) ← parseV fuel r2
        let r4 := r3.dropWhile isJsonWs
        match r4 with
        | 44 :: r5 => do
          let (l, r6) ← parseObjTail fuel (r5.dropWhile isJsonWs)
          pure ((key, v) :: l, r6)
        | 125 :: r5 => pure ([(key, v)], r5)
        | _ => none
      | _ => none
    | _ => none

end

/-- `JSON.parse(s)`: parse one value and require only whitespace after it;
`none` is a thrown `SyntaxError`. -/
def jsonParse (s : JStr) : Option Js :=
  match parseV (2 * s.length + 2) s with
  | some (v, r) => if r.dropWhile isJsonWs = [] then some v else none
  | none => none

end UA

namespace UA

/-- `Array.prototype.join(sep)`. -/
def joinSep (sep : JStr) (parts : List JStr) : JStr := List.intercalate sep parts

mutual

/-- JavaScript `String(v)` of a parsed JSON value as it appears inside
`Array.prototype.join` (null renders empty, nested arrays join with a comma,
objects render as `[object Object]`). -/
def jsDisplay : Js → JStr
  | Js.jnull => []
  | Js.jbool b => if b then strCodes "true" else strCodes "false"
  | Js.jnum q => jsNumToStr q
  | Js.jstr s => s
  | Js.jarr l => joinSep (strCodes ",") (jsDisplayList l)
  | Js.jobj _ => strCodes "[object Object]"

/-- `jsDisplay` over a list of values. -/
def jsDisplayList : List Js → List JStr
  | [] => []
  | v :: vs => jsDisplay v :: jsDisplayList vs

end

/-- The test `utilities.length > 0` on the parsed value: arrays and strings
have a real `length`; on objects an explicit `length` member is read (last
duplicate wins, compared `> 0` for numeric, boolean and null values — other
coercions do not occur in this data); numbers, booleans and null have no
`length` property, so the comparison is `undefined > 0`, i.e. false. -/
def jsLengthPos : Js → Bool
  | Js.jarr l => 0 < l.length
  | Js.jstr s => 0 < s.length
  | Js.jobj l =>
    match (l.reverse).lookup (strCodes "length") with
    | some (Js.jnum q) => 0 < q
    | some (Js.jbool b) => b
    | _ => false
  | _ => false

/-- The `try` block of `getUtilities`: `JSON.parse` (throws on invalid JSON),
then `utilities.length > 0 ? utilities.join(', ') : 'Contact for details'`
(`.join` throws a `TypeError` when `utilities` is not an array). -/
def utilitiesTry (s : JStr) : Except Unit JStr :=
  match jsonParse s with
  | none => Except.error ()
  | some u =>
    if jsLengthPos u then
      match u with
      | Js.jarr l => Except.ok (joinSep (strCodes ", ") (jsDisplayList l))
      | _ => Except.error ()
    else Except.ok (strCodes "Contact for details")

/-- `getUtilities`: falsy field gives `Contact for details`; otherwise the
`try` block runs and any exception is caught, returning the raw string. -/
def getUtilities (raw : Option JStr) : JStr :=
  match raw with
  | none => strCodes "Contact for details"
  | some s =>
    if s = [] then strCodes "Contact for details"
    else
      match utilitiesTry s with
      | Except.ok r => r
      | Except.error _ => s

/-- The `ApartmentComplex` record (fields used by the display helpers;
optional TypeScript booleans are modelled as `Bool`, since `undefined` and
`false` behave identically at every use site here). -/
structure ApartmentComplex where
  id : JStr := []
  name : JStr := []
  phone_number : Option JStr := none
  notes : Option JStr := none
  lease_term : Option ℚ := none
  lease_type : Option JStr := none
  studio_cost : Option JStr := none
  one_bedroom_cost : Option JStr := none
  two_bedroom_cost : Option JStr := none
  three_bedroom_cost : Option JStr := none
  four_bedroom_cost : Option JStr := none
  five_bedroom_cost : Option JStr := none
  application_fee : Option ℚ := none
  security_deposit : Option JStr := none
  pets_allowed : Bool := false
  parking_included : Bool := false
  furniture_included : Bool := false
  utilities_included : Option JStr := none
  laundry : Option JStr := none
  additional_fees : Option JStr := none
  distance_to_burruss : Option ℚ := none
  bus_stop_nearby : Bool := false
  address : Option JStr := none
  deriving DecidableEq, Repr

/-- The six bedroom-cost fields, in the order `getPriceRange` lists them. -/
def costFields (a : ApartmentComplex) : List (Option JStr) :=
  [a.studio_cost, a.one_bedroom_cost, a.two_bedroom_cost,
   a.three_bedroom_cost, a.four_bedroom_cost, a.five_bedroom_cost]

/-- The numbers one cost string contributes to `numericPrices`: strings with
a dash are split and both halves `parseInt`ed (`NaN` halves skipped); other
strings have their non-digits stripped and contribute when positive. -/
def pricePartNums (p : JStr) : List Int :=
  if p.contains 45 then
    let parts := (p.splitOn 45).map (fun x => js_parseInt (jsTrim x))
    (Option.join (parts.get? 0)).toList ++ (Option.join (parts.get? 1)).toList
  else
    let n : Int := digitsVal (p.filter isDigitCode)
    if 0 < n then [n] else []

/-- `getPriceRange`: keep the truthy cost fields other than `'X'`, collect
their numeric contributions, and render `Contact for pricing`, a single
price, or a min–max range. -/
def getPriceRange (a : ApartmentComplex) : JStr :=
  let prices := ((costFields a).filterMap id).filter
    (fun p => !(p = []) && !(p = strCodes "X"))
  if prices = [] then strCodes "Contact for pricing"
  else
    let numericPrices := (prices.map pricePartNums).flatten
    match numericPrices with
    | [] => strCodes "Contact for pricing"
    | h :: t =>
      let minPrice := t.foldl min h
      let maxPrice := t.foldl max h
      if minPrice = maxPrice then
        strCodes "$" ++ intToStr minPrice ++ strCodes "/month"
      else
        strCodes "$" ++ intToStr minPrice ++ strCodes "-$" ++ intToStr maxPrice ++ strCodes "/month"

/-- `getBedroomCount`: one label per truthy non-`'X'` cost field, joined, or
`Various` when there is none. -/
def getBedroomCount (a : ApartmentComplex) : JStr :=
  let counts := (List.zip (costFields a)
      [strCodes "Studio", strCodes "1BR", strCodes "2BR",
       strCodes "3BR", strCodes "4BR", strCodes "5BR"]).filterMap
    (fun cl => if jsTruthyStr cl.1 ∧ cl.1 ≠ some (strCodes "X") then some cl.2 else none)
  if counts = [] then strCodes "Various" else joinSep (strCodes ", ") counts

/-- The record returned by `formatApartmentForDisplay`. -/
structure DisplayApartment where
  id : JStr
  name : JStr
  address : JStr
  price : JStr
  bedrooms : JStr
  distance : JStr
  phone : JStr
  utilities : JStr
  pets : JStr
  parking : JStr
  furniture : JStr
  laundry : JStr
  busStop : JStr
  notes : JStr
  applicationFee : JStr
  securityDeposit : JStr
  additionalFees : JStr
  leaseType : JStr
  leaseTerm : JStr
  deriving DecidableEq, Repr

/-- JavaScript `value || fallback` for an optional string field. -/
def orDefault (v : Option JStr) (d : JStr) : JStr :=
  if jsTruthyStr v then v.getD [] else d

/-- `formatApartmentForDisplay`: assemble the display record; every branch
tests JavaScript truthiness of the underlying field. -/
def formatApartmentForDisplay (a : ApartmentComplex) : DisplayApartment :=
  { id := a.id
    name := a.name
    address := orDefault a.address (strCodes "Address not provided")
    price := getPriceRange a
    bedrooms := getBedroomCount a
    distance :=
      match a.distance_to_burruss with
      | some d =>
        if d ≠ 0 then jsNumToStr d ++ strCodes " miles to campus"
        else strCodes "Distance not provided"
      | none => strCodes "Distance not provided"
    phone := orDefault a.phone_number (strCodes "Contact not provided")
    utilities := getUtilities a.utilities_included
    pets := if a.pets_allowed then strCodes "Pets allowed" else strCodes "No pets"
    parking := if a.parking_included then strCodes "Parking included" else strCodes "Parking not included"
    furniture := if a.furniture_included then strCodes "Furnished" else strCodes "Unfurnished"
    laundry := orDefault a.laundry (strCodes "Contact for details")
    busStop := if a.bus_stop_nearby then strCodes "Bus stop nearby" else strCodes "No bus stop"
    notes := orDefault a.notes []
    applicationFee :=
      match a.application_fee with
      | some f =>
        if f ≠ 0 then strCodes "$" ++ jsNumToStr f
        else strCodes "Contact for details"
      | none => strCodes "Contact for details"
    securityDeposit := orDefault a.security_deposit (strCodes "Contact for details")
    additionalFees := orDefault a.additional_fees (strCodes "None")
    leaseType := orDefault a.lease_type (strCodes "Contact for details")
    leaseTerm :=
      match a.lease_term with
      | some t =>
        if t ≠ 0 then jsNumToStr t ++ strCodes " months"
        else strCodes "Contact for details"
      | none => strCodes "Contact for details" }

end UA

/-! ## Helper lemmas -/

/-- Upper-casing one character code is idempotent. -/
theorem upChar_idem (n : Nat) : upChar (upChar n) = upChar n := by
  unfold upChar
  split_ifs <;> omega

/-- `toUpperCase` is idempotent. -/
theorem jsToUpperCase_idem (s : JStr) :
    jsToUpperCase (jsToUpperCase s) = jsToUpperCase s := by
  unfold jsToUpperCase
  rw [List.map_map]
  congr 1
  funext n
  exact upChar_idem n

/-! ## Claims -/

/-- Claim C1, counterexample.  The claim says an unrecognised string, or an
integer outside 1..5, is rejected with `InvalidPreferenceValue`; both
embedded converters instead map such raw values to the scale point 5 and
have no failure path at all. -/
theorem claim_C1_counterexample :
    RM.convertPreferenceToInt (strCodes "PURPLE") = 5 ∧
    RM.convertPreferenceToInt (strCodes "7") = 5 ∧
    OB.convertPreferenceToInt 42 = 5 := by
  decide

/-- Claim C1, amended.  The conversion to the 1–5 scale never rejects a raw
value: the string converter maps the four lower ordinal labels
(case-insensitively) to 1–4 and every other value — `VERY_HIGH` and any
unrecognised string alike — to 5, and the numeric converter maps every
number to a bucket in 1–5. -/
theorem claim_C1_amended :
    (∀ s : JStr, 1 ≤ RM.convertPreferenceToInt s ∧ RM.convertPreferenceToInt s ≤ 5) ∧
    (∀ s : JStr,
      jsToUpperCase s ≠ strCodes "VERY_LOW" →
      jsToUpperCase s ≠ strCodes "LOW" →
      jsToUpperCase s ≠ strCodes "MEDIUM" →
      jsToUpperCase s ≠ strCodes "HIGH" →
      RM.convertPreferenceToInt s = 5) ∧
    (∀ v : ℚ, 1 ≤ OB.convertPreferenceToInt v ∧ OB.convertPreferenceToInt v ≤ 5) := by
  refine ⟨fun s => ?_, fun s h1 h2 h3 h4 => ?_, fun v => ?_⟩
  · simp only [RM.convertPreferenceToInt]
    split_ifs <;> omega
  · unfold RM.convertPreferenceToInt
    rw [if_neg h1, if_neg h2, if_neg h3, if_neg h4]
  · unfold OB.convertPreferenceToInt
    split_ifs <;> omega

/-- Claim C1, amended, witness at a concrete unrecognised raw value. -/
theorem claim_C1_amended_witness :
    RM.convertPreferenceToInt (strCodes "GARBAGE") = 5 :=
  claim_C1_amended.2.1 (strCodes "GARBAGE")
    (by decide) (by decide) (by decide) (by decide)

/-- Claim C2: every falsy raw value (missing, null, or 0) converts to the
`MEDIUM` label, the label of the scale midpoint 3, and never to an error. -/
theorem claim_C2 (v : Option Int) (h : v = none ∨ v = some 0) :
    RM.intToPreference v = strCodes "MEDIUM" ∧
    RM.convertPreferenceToInt (RM.intToPreference v) = 3 := by
  rcases h with h | h <;> subst h <;> decide

/-- Claim C2, witness at the falsy value 0. -/
theorem claim_C2_witness :
    RM.intToPreference (some 0) = strCodes "MEDIUM" ∧
    RM.convertPreferenceToInt (RM.intToPreference (some 0)) = 3 :=
  claim_C2 (some 0) (Or.inr rfl)

/-- Claim C3: each of the five ordinal labels, in any letter-casing, maps to
its ordinal position 1–5 (lowest to highest), and the conversion is
unchanged by upper-casing its input. -/
theorem claim_C3 (s : JStr) :
    (jsToUpperCase s = strCodes "VERY_LOW" → RM.convertPreferenceToInt s = 1) ∧
    (jsToUpperCase s = strCodes "LOW" → RM.convertPreferenceToInt s = 2) ∧
    (jsToUpperCase s = strCodes "MEDIUM" → RM.convertPreferenceToInt s = 3) ∧
    (jsToUpperCase s = strCodes "HIGH" → RM.convertPreferenceToInt s = 4) ∧
    (jsToUpperCase s = strCodes "VERY_HIGH" → RM.convertPreferenceToInt s = 5) ∧
    RM.convertPreferenceToInt (jsToUpperCase s) = RM.convertPreferenceToInt s := by
  refine ⟨fun h => ?_, fun h => ?_, fun h => ?_, fun h => ?_, fun h => ?_, ?_⟩ <;>
    simp only [RM.convertPreferenceToInt, jsToUpperCase_idem]
  · rw [h]; decide
  · rw [h]; decide
  · rw [h]; decide
  · rw [h]; decide
  · rw [h]; decide

/-- Claim C3, witness: a mixed-case spelling of the lowest label maps to 1. -/
theorem claim_C3_witness :
    RM.convertPreferenceToInt (strCodes "vErY_lOw") = 1 :=
  (claim_C3 (strCodes "vErY_lOw")).1 (by decide)

/-- Claim C4: the two encodings round-trip through the canonical 1–5 scale:
integer → label → integer is the identity on 1..5, and label → integer →
label is the identity on the five accepted labels. -/
theorem claim_C4 (n : Int) (h1 : 1 ≤ n) (h2 : n ≤ 5) :
    RM.convertPreferenceToInt (RM.intToPreference (some n)) = n ∧
    ∀ l ∈ [strCodes "VERY_LOW", strCodes "LOW", strCodes "MEDIUM",
           strCodes "HIGH", strCodes "VERY_HIGH"],
      RM.intToPreference (some (RM.convertPreferenceToInt l)) = l := by
  constructor
  · have hn : n = 1 ∨ n = 2 ∨ n = 3 ∨ n = 4 ∨ n = 5 := by omega
    rcases hn with h | h | h | h | h <;> subst h <;> decide
  · intro l hl
    fin_cases hl <;> decide

/-- Claim C4, witness at 2. -/
theorem claim_C4_witness :
    RM.convertPreferenceToInt (RM.intToPreference (some 2)) = 2 :=
  (claim_C4 2 (by decide) (by decide)).1

/-- The five accepted ordinal labels, lowest to highest. -/
def ordinalLabels : List JStr :=
  [strCodes "VERY_LOW", strCodes "LOW", strCodes "MEDIUM",
   strCodes "HIGH", strCodes "VERY_HIGH"]

/-- `convertPreference` always produces one of the five ordinal labels. -/
theorem convertPreference_mem (v : ℚ) : OB.convertPreference v ∈ ordinalLabels := by
  simp only [OB.convertPreference, ordinalLabels]
  split_ifs <;> simp

/-- A cost field that contributes no entry to `numericPrices` (absent fields
never reach the parse; present ones must parse to nothing positive). -/
def contributesNoPrice (f : Option JStr) : Prop :=
  ∀ s, f = some s → UA.pricePartNums s = []

/-- Apartment with only blank, `'X'` and non-numeric cost fields and a
negative distance. -/
def blankCostApartment : UA.ApartmentComplex :=
  { one_bedroom_cost := some (strCodes "X")
    two_bedroom_cost := some (strCodes "call us")
    distance_to_burruss := some (-3) }

/-- Apartment with a negative distance and a negative-looking price string. -/
def negativeFieldApartment : UA.ApartmentComplex :=
  { distance_to_burruss := some (-2)
    two_bedroom_cost := some (strCodes "-500") }

/-- Claim C5, counterexample.  The claim says a negative price or a negative
distance is treated as unknown rather than shown as a value; the display
code shows a negative distance verbatim and shows the digits of a
negative price string as a price. -/
theorem claim_C5_counterexample :
    (UA.formatApartmentForDisplay negativeFieldApartment).distance =
      strCodes "-2 miles to campus" ∧
    (UA.formatApartmentForDisplay negativeFieldApartment).price =
      strCodes "$500/month" := by
  constructor <;> decide

/-- Claim C5, amended.  When none of the six bedroom-cost fields contributes
a positive number (absent, `'X'`, or non-numeric) the displayed price is
`Contact for pricing`; a present non-zero distance — negative included — is
displayed as a value, not treated as unknown. -/
theorem claim_C5_amended (a : UA.ApartmentComplex)
    (h : ∀ f ∈ UA.costFields a, contributesNoPrice f) :
    (UA.formatApartmentForDisplay a).price = strCodes "Contact for pricing" ∧
    (∀ d : ℚ, a.distance_to_burruss = some d → d ≠ 0 →
      (UA.formatApartmentForDisplay a).distance =
        jsNumToStr d ++ strCodes " miles to campus") := by
  constructor
  · show UA.getPriceRange a = _
    simp only [UA.getPriceRange]
    by_cases hp : ((UA.costFields a).filterMap id).filter
        (fun p => !(p = []) && !(p = strCodes "X")) = []
    · rw [if_pos hp]
    · rw [if_neg hp]
      have hflat : ((((UA.costFields a).filterMap id).filter
          (fun p => !(p = []) && !(p = strCodes "X"))).map UA.pricePartNums).flatten = [] := by
        rw [List.flatten_eq_nil_iff]
        intro l hl
        rcases List.mem_map.mp hl with ⟨p, hpmem, rfl⟩
        have hpm : p ∈ (UA.costFields a).filterMap id := (List.mem_filter.mp hpmem).1
        rcases List.mem_filterMap.mp hpm with ⟨f, hf, hfp⟩
        exact h f hf p (by simpa using hfp)
      rw [hflat]
  · intro d hd hdne
    show (match a.distance_to_burruss with
      | some d =>
        if d ≠ 0 then jsNumToStr d ++ strCodes " miles to campus"
        else strCodes "Distance not provided"
      | none => strCodes "Distance not provided") = _
    rw [hd]
    simp only [if_pos hdne]

/-- Claim C5, amended, witness: all cost fields blank, `'X'` or non-numeric
and distance `-3`. -/
theorem claim_C5_amended_witness :
    (UA.formatApartmentForDisplay blankCostApartment).price =
      strCodes "Contact for pricing" ∧
    (UA.formatApartmentForDisplay blankCostApartment).distance =
      strCodes "-3 miles to campus" := by
  have h : ∀ f ∈ UA.costFields blankCostApartment, contributesNoPrice f := by
    intro f hf
    fin_cases hf <;> intro s hs <;> cases hs <;> decide
  refine ⟨(claim_C5_amended blankCostApartment h).1, ?_⟩
  have h2 := (claim_C5_amended blankCostApartment h).2 (-3) rfl (by norm_num)
  rw [h2]
  decide

/-- Claim C6: every onboarding profile payload carries all five lifestyle
dimensions as one of the five accepted ordinal labels, whatever the raw
slider values are. -/
theorem claim_C6 (budgetStr : JStr) (clean noise study social sleep : ℚ) :
    (OB.roommateProfileData budgetStr clean noise study social sleep).cleanliness ∈ ordinalLabels ∧
    (OB.roommateProfileData budgetStr clean noise study social sleep).noise_level ∈ ordinalLabels ∧
    (OB.roommateProfileData budgetStr clean noise study social sleep).study_time ∈ ordinalLabels ∧
    (OB.roommateProfileData budgetStr clean noise study social sleep).social_level ∈ ordinalLabels ∧
    (OB.roommateProfileData budgetStr clean noise study social sleep).sleep_schedule ∈ ordinalLabels :=
  ⟨convertPreference_mem clean, convertPreference_mem noise, convertPreference_mem study,
   convertPreference_mem social, convertPreference_mem sleep⟩

/-- Claim C7: the onboarding payload's budget minimum is the non-negative
digits-only parse (1000 default) and `budget_max = budget_min + 200`, so
`budget_min ≤ budget_max`. -/
theorem claim_C7 (budgetStr : JStr) (clean noise study social sleep : ℚ) :
    (OB.roommateProfileData budgetStr clean noise study social sleep).budget_min =
      OB.parseBudget budgetStr ∧
    0 ≤ (OB.roommateProfileData budgetStr clean noise study social sleep).budget_min ∧
    (OB.roommateProfileData budgetStr clean noise study social sleep).budget_max =
      (OB.roommateProfileData budgetStr clean noise study social sleep).budget_min + 200 ∧
    (OB.roommateProfileData budgetStr clean noise study social sleep).budget_min ≤
      (OB.roommateProfileData budgetStr clean noise study social sleep).budget_max := by
  have hpb : 0 ≤ OB.parseBudget budgetStr := by
    simp only [OB.parseBudget]
    split_ifs with h
    · omega
    · exact Int.natCast_nonneg _
  refine ⟨rfl, hpb, rfl, ?_⟩
  show OB.parseBudget budgetStr ≤ OB.parseBudget budgetStr + 200
  omega

/-- Claim C8: the find-roommate-matches request body always sets
`min_compatibility` to 0.5, for every profile it is called with. -/
theorem claim_C8 (profileData : Option OB.RoommatePayload)
    (profileState : OB.RoommatePayload) :
    (OB.fetchRoommateMatchesBody profileData profileState).min_compatibility = 1/2 :=
  rfl

/-- Claim C9: `formatApartmentForDisplay` is total — it returns a display
record built from the same helpers for every apartment record (the one
exception-throwing region, the `JSON.parse`/`join` of `utilities_included`,
is wrapped in the catch inside `getUtilities`) — and when that `try` block
throws, the displayed utilities fall back to the raw string. -/
theorem claim_C9 (a : UA.ApartmentComplex) :
    (UA.formatApartmentForDisplay a).utilities = UA.getUtilities a.utilities_included ∧
    (∀ s : JStr, a.utilities_included = some s → s ≠ [] →
      UA.utilitiesTry s = Except.error () →
      (UA.formatApartmentForDisplay a).utilities = s) := by
  refine ⟨rfl, fun s hs hne herr => ?_⟩
  show UA.getUtilities a.utilities_included = s
  rw [hs]
  simp only [UA.getUtilities]
  rw [if_neg hne, herr]

/-- Claim C9, witness: a non-JSON utilities string is displayed verbatim. -/
theorem claim_C9_witness :
    (UA.formatApartmentForDisplay
      ({ utilities_included := some (strCodes "Water and trash") } : UA.ApartmentComplex)).utilities =
      strCodes "Water and trash" :=
  (claim_C9 _).2 (strCodes "Water and trash") rfl (by decide) (by rfl)

/-- Claim C10: a distance of exactly 0 displays `Distance not provided`,
indistinguishable from a missing distance, because the field is tested for
truthiness. -/
theorem claim_C10 (a : UA.ApartmentComplex)
    (h : a.distance_to_burruss = some 0) :
    (UA.formatApartmentForDisplay a).distance = strCodes "Distance not provided" ∧
    (UA.formatApartmentForDisplay { a with distance_to_burruss := none }).distance =
      (UA.formatApartmentForDisplay a).distance := by
  constructor <;> simp [UA.formatApartmentForDisplay, h]

/-- Claim C10, witness at distance 0. -/
theorem claim_C10_witness :
    (UA.formatApartmentForDisplay
      ({ distance_to_burruss := some 0 } : UA.ApartmentComplex)).distance =
      strCodes "Distance not provided" :=
  (claim_C10 ({ distance_to_burruss := some 0 } : UA.ApartmentComplex) rfl).1
